import Mathlib

/-!
Shallow embedding of the CDEC snow-data retrieval scripts
(`pull_cdec_met.py` and `pull_snowcourses.py`).

Numbers are modelled as rationals; dates as calendar records; a pandas
dataframe for the metadata path as an association list from column name to
cell (so that facts independent of the input column order can be stated);
the external fetch collaborator as a function returning `Option`; fallible
steps return `Except`/`Option`.
-/

/-- A calendar date: year, month number (1-12), day of month. -/
structure Date where
  year : Nat
  month : Nat
  day : Nat
deriving DecidableEq

/-- strftime `%b` in the C locale: three-letter English month abbreviation. -/
def monthAbbrev : Nat → String
  | 1 => "Jan"
  | 2 => "Feb"
  | 3 => "Mar"
  | 4 => "Apr"
  | 5 => "May"
  | 6 => "Jun"
  | 7 => "Jul"
  | 8 => "Aug"
  | 9 => "Sep"
  | 10 => "Oct"
  | 11 => "Nov"
  | 12 => "Dec"
  | _ => ""

/-- strftime `%d`: day of month, zero-padded to two digits. -/
def pad2 (n : Nat) : String :=
  if n < 10 then "0" ++ toString n else toString n

/-- One raw observation row of the per-station fetch result, as seen after
`df.reset_index()` in `organize_for_snowmodel`: the station id column
`site`, the snow-course date column `measurementDate`, the sensor timestamp
column `datetime`, and the raw measurements `SWE` and `SNOWDEPTH` in inches. -/
structure RawRow where
  site : String
  measurementDate : Date
  datetime : Date
  SWE : ℚ
  SNOWDEPTH : ℚ
deriving DecidableEq

/-- A formatted output row of `organize_for_snowmodel`, columns
`['Y', 'M', 'D', 'swe', 'depth', 'density']`. -/
structure FormattedRow where
  Y : Nat
  M : String
  D : String
  swe : ℚ
  depth : ℚ
  density : ℚ
deriving DecidableEq

/-- Step 2 of `organize_for_snowmodel`:
`date_col = 'measurementDate' if is_snowcourse else 'datetime'`. -/
def selectDate (is_snowcourse : Bool) (r : RawRow) : Date :=
  if is_snowcourse then r.measurementDate else r.datetime

/-- The row after step 3 of `organize_for_snowmodel`
(`df.rename(columns={"SWE":'swe', 'SNOWDEPTH':'depth'})`), restricted to the
date already extracted and the two renamed measurement columns. -/
structure RenamedRow where
  date : Date
  swe : ℚ
  depth : ℚ
deriving DecidableEq

/-- Step 3 of `organize_for_snowmodel`: rename `SWE` to `swe` and
`SNOWDEPTH` to `depth`; the values are untouched, still in inches. -/
def renameRow (is_snowcourse : Bool) (r : RawRow) : RenamedRow :=
  { date := selectDate is_snowcourse r, swe := r.SWE, depth := r.SNOWDEPTH }

/-- Step 4 of `organize_for_snowmodel`: `df['swe'] = df['swe'] * 25.4` and
`df['depth'] = df['depth'] * 2.54` (inches to mm, inches to cm). -/
def convertRow (r : RenamedRow) : RenamedRow :=
  { r with swe := r.swe * (254 / 10), depth := r.depth * (254 / 100) }

/-- The density step of `organize_for_snowmodel`: default `0`, and for rows
with `swe > 0` and `depth > 0` the value
`997 * 0.001 * swe / (0.01 * depth)`. -/
def densityOf (swe depth : ℚ) : ℚ :=
  if swe > 0 ∧ depth > 0 then 997 * (1 / 1000) * swe / ((1 / 100) * depth) else 0

/-- The full per-row transformation of `organize_for_snowmodel`: date split
into `Y`/`M`/`D`, rename, unit conversion, then density. -/
def formatRow (is_snowcourse : Bool) (r : RawRow) : FormattedRow :=
  let c := convertRow (renameRow is_snowcourse r)
  { Y := c.date.year
    M := monthAbbrev c.date.month
    D := pad2 c.date.day
    swe := c.swe
    depth := c.depth
    density := densityOf c.swe c.depth }

/-- `organize_for_snowmodel(df, is_snowcourse)`: on an empty frame
`df['site'].iloc[0]` raises `IndexError`, modelled as `none`; otherwise the
output filename `f"{state_code}_{stationID}_{sitetype}.csv"` together with
the formatted rows (in source order) that are written to it. -/
def organize_for_snowmodel (df : List RawRow) (is_snowcourse : Bool) :
    Option (String × List FormattedRow) :=
  match df with
  | [] => none
  | r0 :: _ =>
    let state_code := "CA"
    let sitetype := if is_snowcourse then "SNOCOURSE" else "SMSITE"
    let stationID := r0.site
    some (state_code ++ "_" ++ stationID ++ "_" ++ sitetype ++ ".csv",
          df.map (formatRow is_snowcourse))

/-- A station descriptor as iterated by the orchestrator loops
(`pnts.points`). -/
structure Pnt where
  id : String
deriving DecidableEq

/-- Python list slice `xs[0:stop]`: for a nonnegative `stop`, the first
`stop` elements; for a negative `stop`, everything before position
`len(xs) + stop`. -/
def pySliceTo (stop : Int) (xs : List α) : List α :=
  if 0 ≤ stop then xs.take stop.toNat
  else xs.take ((xs.length : Int) + stop).toNat

/-- `limit = -1 if limit is None else limit`, shared by
`get_snow_course_data` and `get_cdec_snotel_data`. -/
def effLimit (limit : Option Int) : Int :=
  match limit with
  | none => -1
  | some l => l

/-- The station list actually visited by `for pnt in pnts.points[0:limit]`
after the `None` default is replaced by `-1`. -/
def iteratedPoints (points : List Pnt) (limit : Option Int) : List Pnt :=
  pySliceTo (effLimit limit) points

/-- The per-station loop body shared by `get_snow_course_data` and
`get_cdec_snotel_data`: fetch the station data; when the fetch returns
`None` the station is skipped; otherwise `organize_for_snowmodel` runs, and
an `IndexError` there aborts the run. The result collects, per processed
station, the output filename and rows written. -/
def runLoop (is_snowcourse : Bool) (fetch : Pnt → Option (List RawRow)) :
    List Pnt → Except String (List (String × List FormattedRow))
  | [] => Except.ok []
  | p :: ps =>
    match fetch p with
    | none => runLoop is_snowcourse fetch ps
    | some df =>
      match organize_for_snowmodel df is_snowcourse with
      | none => Except.error "IndexError"
      | some out =>
        match runLoop is_snowcourse fetch ps with
        | Except.error e => Except.error e
        | Except.ok outs => Except.ok (out :: outs)

/-- `get_snow_course_data(start, end, limit)`: iterate the sliced station
list and process each with the snow-course flag set. The external fetch
(`pnt.get_snow_course_data`) is a parameter. -/
def get_snow_course_data (points : List Pnt) (fetch : Pnt → Option (List RawRow))
    (limit : Option Int) : Except String (List (String × List FormattedRow)) :=
  runLoop true fetch (iteratedPoints points limit)

/-- `get_cdec_snotel_data(start, end, limit)`: iterate the sliced station
list and process each with the snow-course flag cleared. The external fetch
(`pnt.get_daily_data`) is a parameter. -/
def get_cdec_snotel_data (points : List Pnt) (fetch : Pnt → Option (List RawRow))
    (limit : Option Int) : Except String (List (String × List FormattedRow)) :=
  runLoop false fetch (iteratedPoints points limit)

/-- A point geometry as produced by the locator: x (longitude),
y (latitude), and an optional third coordinate z (elevation); a 2-D point
has no z. -/
structure GeoPoint where
  x : ℚ
  y : ℚ
  z : Option ℚ
deriving DecidableEq

/-- A dataframe cell for the metadata path: a string, a number, or a point
geometry. -/
inductive Cell where
  | str (s : String)
  | num (q : ℚ)
  | geom (p : GeoPoint)
deriving DecidableEq

/-- A dataframe row as an association list from column name to cell, in the
frame's column order (the locator may present columns in any order). -/
abbrev DfRow := List (String × Cell)

/-- Column access by name: the cell of the first column named `c`. -/
def colGet (c : String) : DfRow → Option Cell
  | [] => none
  | (k, v) :: t => if k = c then some v else colGet c t

/-- Overwrite every column named `c` in place (pandas column assignment on
an existing column keeps its position). -/
def setColMap (c : String) (v : Cell) : DfRow → DfRow
  | [] => []
  | (k, w) :: t => if k = c then (c, v) :: setColMap c v t else (k, w) :: setColMap c v t

/-- pandas column assignment `df[c] = v`: overwrite the column in place if
present, append it at the end otherwise. -/
def setCol (c : String) (v : Cell) (row : DfRow) : DfRow :=
  if (colGet c row).isSome then setColMap c v row else row ++ [(c, v)]

/-- `df.rename(columns={old: new})`: rename every column named `old`,
keeping its position and value. -/
def renameCol (old new : String) : DfRow → DfRow
  | [] => []
  | (k, v) :: t =>
    if k = old then (new, v) :: renameCol old new t else (k, v) :: renameCol old new t

/-- `df.drop(columns=[c])`: remove every column named `c`. -/
def dropCol (c : String) : DfRow → DfRow
  | [] => []
  | (k, v) :: t => if k = c then dropCol c t else (k, v) :: dropCol c t

/-- `df[cols]`: project onto the named columns in the given order; `none`
when a requested column is missing (pandas `KeyError`). -/
def selectCols (cols : List String) (row : DfRow) : Option (List Cell) :=
  match cols with
  | [] => some []
  | c :: cs =>
    match colGet c row, selectCols cs row with
    | some v, some vs => some (v :: vs)
    | _, _ => none

/-- The fixed output column order of `make_snow_course_metadata`
(`columns_order = ['statecode', 'station ID', 'lat', 'lon', 'elev']`). -/
def columns_order : List String :=
  ["statecode", "station ID", "lat", "lon", "elev"]

/-- Modelled from the spec: the third-coordinate accessor `df.geometry.z`
is provided by the external geometry libraries, which are not part of this
repository; per the spec it "fails if any station lacks a usable 3-D
position (undefined elevation)" rather than defaulting, so a point without
a z coordinate yields an error. -/
def geomZ (p : GeoPoint) : Except String ℚ :=
  match p.z with
  | some z => Except.ok z
  | none => Except.error "z undefined"

/-- The per-station body of `make_snow_course_metadata`: read the geometry,
add `lon`/`lat`/`elev` from it, rename `id` to `station ID`, drop the
geometry column, add `statecode = 'CA'`, and project onto
`columns_order`. -/
def metadataRow (row : DfRow) : Except String (List Cell) :=
  match colGet "geometry" row with
  | some (Cell.geom g) =>
    match geomZ g with
    | Except.error e => Except.error e
    | Except.ok z =>
      let row1 := setCol "lon" (Cell.num g.x) row
      let row2 := setCol "lat" (Cell.num g.y) row1
      let row3 := setCol "elev" (Cell.num z) row2
      let row4 := renameCol "id" "station ID" row3
      let row5 := dropCol "geometry" row4
      let row6 := setCol "statecode" (Cell.str "CA") row5
      match selectCols columns_order row6 with
      | some cells => Except.ok cells
      | none => Except.error "KeyError"
  | _ => Except.error "no geometry column"

/-- Row-wise traversal of the station frame; any failing row fails the
whole metadata generation. -/
def mapMeta : List DfRow → Except String (List (List Cell))
  | [] => Except.ok []
  | r :: t =>
    match metadataRow r with
    | Except.error e => Except.error e
    | Except.ok cells =>
      match mapMeta t with
      | Except.error e => Except.error e
      | Except.ok rest => Except.ok (cells :: rest)

/-- `make_snow_course_metadata`: from the locator frame, the header (the
fixed `columns_order`) and the data rows dumped to
`Sierras_COURSE_station_info.csv`. -/
def make_snow_course_metadata (df : List DfRow) :
    Except String (List String × List (List Cell)) :=
  match mapMeta df with
  | Except.error e => Except.error e
  | Except.ok rows => Except.ok (columns_order, rows)

/-- Rendering of one cell for CSV serialization. -/
def cellStr : Cell → String
  | Cell.str s => s
  | Cell.num q => toString q
  | Cell.geom _ => "geom"

/-- `to_csv(..., index=False)` on the metadata table: one header line of
the column names joined by commas, then one line per data row of its cells
joined by commas; no index column is emitted. -/
def csvOfTable (header : List String) (rows : List (List Cell)) : String :=
  String.intercalate "\n"
    (String.intercalate "," header ::
      rows.map (fun r => String.intercalate "," (r.map cellStr)))

/-- Example date 2024-01-15. -/
def dEx : Date := ⟨2024, 1, 15⟩

/-- Example date 2023-10-05. -/
def dEx2 : Date := ⟨2023, 10, 5⟩

/-- Example observation row with positive measurements. -/
def rEx : RawRow := ⟨"ABC", dEx, dEx2, 10, 10⟩

/-- Example observation row with zero SWE. -/
def rExZero : RawRow := ⟨"ABC", dEx, dEx2, 0, 10⟩

/-- Example station A. -/
def pntA : Pnt := ⟨"AAA"⟩

/-- Example station B. -/
def pntB : Pnt := ⟨"BBB"⟩

/-- Fetch stub returning one observation row for every station. -/
def fetchEx : Pnt → Option (List RawRow) :=
  fun p => some [{ rEx with site := p.id }]

/-- C1: for every observation row whose converted swe (mm) and depth (cm)
are both strictly positive, the formatter sets
density = 997 × 0.001 × swe / (0.01 × depth) = 997 × swe / (10 × depth);
in particular swe = 100 mm and depth = 50 cm give density 199.4. -/
theorem organize_density_positive (b : Bool) (r : RawRow)
    (hswe : 0 < (convertRow (renameRow b r)).swe)
    (hdepth : 0 < (convertRow (renameRow b r)).depth) :
    (formatRow b r).density
        = 997 * (1 / 1000) * (formatRow b r).swe / ((1 / 100) * (formatRow b r).depth)
    ∧ (formatRow b r).density = 997 * (formatRow b r).swe / (10 * (formatRow b r).depth)
    ∧ densityOf 100 50 = 1994 / 10 := by
  have hd : (convertRow (renameRow b r)).depth ≠ 0 := ne_of_gt hdepth
  refine ⟨?_, ?_, by norm_num [densityOf]⟩
  · simp [formatRow, densityOf, hswe, hdepth]
  · simp only [formatRow, densityOf]
    rw [if_pos ⟨hswe, hdepth⟩]
    field_simp
    ring

/-- Witness for C1 at the concrete row `rEx` (254 mm swe, 25.4 cm depth). -/
theorem organize_density_positive_holds :
    (formatRow true rEx).density
      = 997 * (formatRow true rEx).swe / (10 * (formatRow true rEx).depth) :=
  (organize_density_positive true rEx
      (by norm_num [convertRow, renameRow, rEx, selectDate])
      (by norm_num [convertRow, renameRow, rEx, selectDate])).2.1

/-- C3: for every observation row where converted swe ≤ 0 or converted
depth ≤ 0, the formatted density is exactly the explicit default 0;
boundary cases: swe 0 with depth 10 gives 0, swe 10 with depth 0 gives 0. -/
theorem organize_density_default_zero (b : Bool) (r : RawRow)
    (h : (convertRow (renameRow b r)).swe ≤ 0 ∨ (convertRow (renameRow b r)).depth ≤ 0) :
    (formatRow b r).density = 0 ∧ densityOf 0 10 = 0 ∧ densityOf 10 0 = 0 := by
  refine ⟨?_, by norm_num [densityOf], by norm_num [densityOf]⟩
  have hcond : ¬((convertRow (renameRow b r)).swe > 0 ∧ (convertRow (renameRow b r)).depth > 0) := by
    rcases h with h | h
    · exact fun hc => absurd hc.1 (not_lt.mpr h)
    · exact fun hc => absurd hc.2 (not_lt.mpr h)
  simp [formatRow, densityOf, hcond]

/-- Witness for C3 at the concrete row `rExZero` (zero swe). -/
theorem organize_density_default_zero_holds :
    (formatRow true rExZero).density = 0 :=
  (organize_density_default_zero true rExZero
      (Or.inl (by norm_num [convertRow, renameRow, rExZero, selectDate]))).1

/-- C5: the unit conversions (×25.4 to mm, ×2.54 to cm) act on the renamed
columns (after SWE→swe, SNOWDEPTH→depth, which copies the raw inch values)
and the density is computed from the converted values; the conversion is
exact: 1 inch of SWE gives exactly 25.4 mm and 1 inch of depth exactly
2.54 cm. -/
theorem rename_convert_density_order (b : Bool) (r : RawRow) :
    (renameRow b r).swe = r.SWE
    ∧ (renameRow b r).depth = r.SNOWDEPTH
    ∧ (convertRow (renameRow b r)).swe = r.SWE * (254 / 10)
    ∧ (convertRow (renameRow b r)).depth = r.SNOWDEPTH * (254 / 100)
    ∧ (formatRow b r).swe = (convertRow (renameRow b r)).swe
    ∧ (formatRow b r).depth = (convertRow (renameRow b r)).depth
    ∧ (formatRow b r).density
        = densityOf (convertRow (renameRow b r)).swe (convertRow (renameRow b r)).depth
    ∧ (convertRow { renameRow b r with swe := 1 }).swe = 254 / 10
    ∧ (convertRow { renameRow b r with depth := 1 }).depth = 254 / 100 := by
  refine ⟨rfl, rfl, rfl, rfl, rfl, rfl, rfl, ?_, ?_⟩ <;> norm_num [convertRow]

/-- C7: the output filename concatenates the state code, the station id
(the `site` of the first row) and the site-type tag with underscores:
`CA_<site>_SNOCOURSE.csv` with the snow-course flag set, and
`CA_<site>_SMSITE.csv` otherwise. -/
theorem organize_output_filename (r0 : RawRow) (rest : List RawRow) :
    (organize_for_snowmodel (r0 :: rest) true).map Prod.fst
        = some ("CA_" ++ r0.site ++ "_SNOCOURSE.csv")
    ∧ (organize_for_snowmodel (r0 :: rest) false).map Prod.fst
        = some ("CA_" ++ r0.site ++ "_SMSITE.csv") := by
  constructor <;> simp [organize_for_snowmodel, String.append_assoc]

/-- C8: the date comes from the measurement-date field when the snow-course
flag is set and from the generic timestamp field otherwise, normalized to
Y = calendar year, M = three-letter month abbreviation, D = two-digit
zero-padded day; 2024-01-15 gives Y=2024, M="Jan", D="15" and 2023-10-05
gives D="05". -/
theorem organize_date_fields (b : Bool) (r : RawRow) :
    (formatRow b r).Y = (selectDate b r).year
    ∧ (formatRow b r).M = monthAbbrev (selectDate b r).month
    ∧ (formatRow b r).D = pad2 (selectDate b r).day
    ∧ selectDate true r = r.measurementDate
    ∧ selectDate false r = r.datetime
    ∧ (formatRow true rEx).Y = 2024
    ∧ (formatRow true rEx).M = "Jan"
    ∧ (formatRow true rEx).D = "15"
    ∧ (formatRow false rEx).D = "05" := by
  exact ⟨rfl, rfl, rfl, rfl, rfl, rfl, rfl, by decide, by decide⟩

/-- C10: the formatter derives the station id from the first row, so on an
empty observation table it fails (the `IndexError`, modelled as `none`) and
every successful invocation consumed at least one row. -/
theorem organize_requires_nonempty (b : Bool) (df : List RawRow)
    (out : String × List FormattedRow)
    (h : organize_for_snowmodel df b = some out) :
    1 ≤ df.length ∧ organize_for_snowmodel [] b = none := by
  refine ⟨?_, rfl⟩
  cases df with
  | nil => simp [organize_for_snowmodel] at h
  | cons r t => simp

/-- Witness for C10 at the one-row table `[rEx]`. -/
theorem organize_requires_nonempty_holds :
    1 ≤ ([rEx] : List RawRow).length ∧ organize_for_snowmodel [] true = none :=
  organize_requires_nonempty true [rEx]
    ("CA_ABC_SNOCOURSE.csv", [formatRow true rEx]) (by rfl)

/-- C4: a station whose fetch returns the absence signal is skipped: the
loop result with it in front of the remaining stations equals the result on
the remaining stations alone, so no file is recorded for it, the formatter
is never invoked on it, and the run continues without aborting. -/
theorem fetch_none_station_skipped (b : Bool) (fetch : Pnt → Option (List RawRow))
    (p : Pnt) (ps : List Pnt) (h : fetch p = none) :
    runLoop b fetch (p :: ps) = runLoop b fetch ps := by
  simp [runLoop, h]

/-- Witness for C4 with a fetch that returns absence for station A. -/
theorem fetch_none_station_skipped_holds :
    runLoop true (fun _ => (none : Option (List RawRow))) [pntA]
      = runLoop true (fun _ => (none : Option (List RawRow))) [] :=
  fetch_none_station_skipped true _ pntA [] rfl

/-- C2 (code bug): with the limit absent (`None`), the loops replace it by
`-1` and slice `points[0:-1]`, so the last station of the collection is
never iterated: of two stations only the first is processed — in both the
snow-course pass and the sensor pass — even though the fetch has data for
both. -/
theorem limit_none_drops_last :
    iteratedPoints [pntA, pntB] none = [pntA]
    ∧ iteratedPoints [pntA, pntB] none ≠ [pntA, pntB]
    ∧ get_snow_course_data [pntA, pntB] fetchEx none
        = Except.ok [("CA_AAA_SNOCOURSE.csv", [formatRow true { rEx with site := "AAA" }])]
    ∧ get_cdec_snotel_data [pntA, pntB] fetchEx none
        = Except.ok [("CA_AAA_SMSITE.csv", [formatRow false { rEx with site := "AAA" }])] := by
  exact ⟨rfl, by decide, rfl, rfl⟩

/-- Overwriting column `c` in place changes exactly the first cell `colGet`
sees for `c`, when one exists. -/
theorem colGet_setColMap (c : String) (v : Cell) (row : DfRow) :
    colGet c (setColMap c v row) = (colGet c row).map (fun _ => v) := by
  induction row with
  | nil => rfl
  | cons hd t ih =>
    obtain ⟨k, w⟩ := hd
    by_cases hk : k = c
    · simp [setColMap, colGet, hk]
    · simp [setColMap, colGet, hk, ih]

/-- Overwriting column `c` in place leaves every other column unchanged. -/
theorem colGet_setColMap_other (c cq : String) (v : Cell) (row : DfRow) (h : cq ≠ c) :
    colGet cq (setColMap c v row) = colGet cq row := by
  induction row with
  | nil => rfl
  | cons hd t ih =>
    obtain ⟨k, w⟩ := hd
    by_cases hk : k = c
    · subst hk
      simp [setColMap, colGet, Ne.symm h, ih]
    · simp [setColMap, colGet, hk, ih]

/-- When a column is absent, lookup passes over an appended prefix. -/
theorem colGet_append_of_none (c : String) (row l : DfRow) (h : colGet c row = none) :
    colGet c (row ++ l) = colGet c l := by
  induction row with
  | nil => rfl
  | cons hd t ih =>
    obtain ⟨k, w⟩ := hd
    by_cases hk : k = c
    · simp [colGet, hk] at h
    · simp only [List.cons_append, colGet, if_neg hk] at h ⊢
      exact ih h

/-- Appending a fresh column named `c` does not affect other columns. -/
theorem colGet_append_single_other (c cq : String) (v : Cell) (row : DfRow) (h : cq ≠ c) :
    colGet cq (row ++ [(c, v)]) = colGet cq row := by
  induction row with
  | nil => simp [colGet, Ne.symm h]
  | cons hd t ih =>
    obtain ⟨k, w⟩ := hd
    by_cases hk : k = cq
    · simp [colGet, hk]
    · simp [colGet, hk, ih]

/-- After `df[c] = v`, looking up `c` gives `v`. -/
theorem colGet_setCol_self (c : String) (v : Cell) (row : DfRow) :
    colGet c (setCol c v row) = some v := by
  unfold setCol
  by_cases h : (colGet c row).isSome
  · rw [if_pos h, colGet_setColMap]
    obtain ⟨w, hw⟩ := Option.isSome_iff_exists.mp h
    simp [hw]
  · rw [if_neg h]
    have hn : colGet c row = none := Option.not_isSome_iff_eq_none.mp h
    rw [colGet_append_of_none c row _ hn]
    simp [colGet]

/-- After `df[c] = v`, every other column is unchanged. -/
theorem colGet_setCol_other (c cq : String) (v : Cell) (row : DfRow) (h : cq ≠ c) :
    colGet cq (setCol c v row) = colGet cq row := by
  unfold setCol
  by_cases hs : (colGet c row).isSome
  · rw [if_pos hs, colGet_setColMap_other c cq v row h]
  · rw [if_neg hs, colGet_append_single_other c cq v row h]

/-- Renaming `old` to a previously absent `new` moves the cell: looking up
`new` afterwards gives what `old` held. -/
theorem colGet_renameCol_new (old new : String) (row : DfRow) (hne : old ≠ new)
    (hnew : colGet new row = none) :
    colGet new (renameCol old new row) = colGet old row := by
  induction row with
  | nil => rfl
  | cons hd t ih =>
    obtain ⟨k, w⟩ := hd
    by_cases hk : k = old
    · subst hk
      simp [renameCol, colGet]
    · have hknew : ¬(k = new) := by
        intro hkn
        rw [hkn] at hnew
        simp [colGet] at hnew
      simp only [renameCol, if_neg hk, colGet, if_neg hknew, if_neg hk]
      apply ih
      simpa [colGet, if_neg hknew] using hnew

/-- Renaming `old` to `new` leaves columns named neither `old` nor `new`
unchanged. -/
theorem colGet_renameCol_other (old new cq : String) (row : DfRow)
    (h1 : cq ≠ old) (h2 : cq ≠ new) :
    colGet cq (renameCol old new row) = colGet cq row := by
  induction row with
  | nil => rfl
  | cons hd t ih =>
    obtain ⟨k, w⟩ := hd
    by_cases hk : k = old
    · subst hk
      simp [renameCol, colGet, Ne.symm h1, Ne.symm h2, ih]
    · simp [renameCol, colGet, hk, ih]

/-- Dropping column `c` leaves every other column unchanged. -/
theorem colGet_dropCol_other (c cq : String) (row : DfRow) (h : cq ≠ c) :
    colGet cq (dropCol c row) = colGet cq row := by
  induction row with
  | nil => rfl
  | cons hd t ih =>
    obtain ⟨k, w⟩ := hd
    by_cases hk : k = c
    · subst hk
      simp [dropCol, colGet, Ne.symm h, ih]
    · simp [dropCol, colGet, hk, ih]

/-- A successful projection returns one cell per requested column. -/
theorem selectCols_length (cols : List String) (row : DfRow) (cells : List Cell)
    (h : selectCols cols row = some cells) : cells.length = cols.length := by
  induction cols generalizing cells with
  | nil =>
    simp only [selectCols, Option.some.injEq] at h
    simp [← h]
  | cons c cs ih =>
    cases hv : colGet c row with
    | none => simp [selectCols, hv] at h
    | some v =>
      cases hs : selectCols cs row with
      | none => simp [selectCols, hv, hs] at h
      | some vs =>
        simp only [selectCols, hv, hs, Option.some.injEq] at h
        rw [← h]
        simp [ih vs hs]

/-- The per-station metadata body is determined by the row's columns by
name, not by their order: a row holding a 3-D geometry and an `id`, and no
pre-existing `station ID` column, yields exactly
`[statecode, station ID, lat, lon, elev]` cells in that order. -/
theorem metadataRow_ok (row : DfRow) (g : GeoPoint) (z : ℚ) (c : Cell)
    (hg : colGet "geometry" row = some (Cell.geom g))
    (hz : g.z = some z)
    (hid : colGet "id" row = some c)
    (hsid : colGet "station ID" row = none) :
    metadataRow row
      = Except.ok [Cell.str "CA", c, Cell.num g.y, Cell.num g.x, Cell.num z] := by
  have hzq : geomZ g = Except.ok z := by unfold geomZ; rw [hz]
  unfold metadataRow
  simp only [hg, hzq]
  set R3 := setCol "elev" (Cell.num z)
      (setCol "lat" (Cell.num g.y) (setCol "lon" (Cell.num g.x) row)) with hR3
  set R6 := setCol "statecode" (Cell.str "CA")
      (dropCol "geometry" (renameCol "id" "station ID" R3)) with hR6
  have hsid3 : colGet "station ID" R3 = none := by
    rw [hR3, colGet_setCol_other "elev" "station ID" _ _ (by decide),
        colGet_setCol_other "lat" "station ID" _ _ (by decide),
        colGet_setCol_other "lon" "station ID" _ _ (by decide), hsid]
  have hid3 : colGet "id" R3 = some c := by
    rw [hR3, colGet_setCol_other "elev" "id" _ _ (by decide),
        colGet_setCol_other "lat" "id" _ _ (by decide),
        colGet_setCol_other "lon" "id" _ _ (by decide), hid]
  have f1 : colGet "statecode" R6 = some (Cell.str "CA") := by
    rw [hR6, colGet_setCol_self]
  have f2 : colGet "station ID" R6 = some c := by
    rw [hR6, colGet_setCol_other "statecode" "station ID" _ _ (by decide),
        colGet_dropCol_other "geometry" "station ID" _ (by decide),
        colGet_renameCol_new "id" "station ID" _ (by decide) hsid3, hid3]
  have f3 : colGet "lat" R6 = some (Cell.num g.y) := by
    rw [hR6, colGet_setCol_other "statecode" "lat" _ _ (by decide),
        colGet_dropCol_other "geometry" "lat" _ (by decide),
        colGet_renameCol_other "id" "station ID" "lat" _ (by decide) (by decide),
        hR3, colGet_setCol_other "elev" "lat" _ _ (by decide),
        colGet_setCol_self]
  have f4 : colGet "lon" R6 = some (Cell.num g.x) := by
    rw [hR6, colGet_setCol_other "statecode" "lon" _ _ (by decide),
        colGet_dropCol_other "geometry" "lon" _ (by decide),
        colGet_renameCol_other "id" "station ID" "lon" _ (by decide) (by decide),
        hR3, colGet_setCol_other "elev" "lon" _ _ (by decide),
        colGet_setCol_other "lat" "lon" _ _ (by decide),
        colGet_setCol_self]
  have f5 : colGet "elev" R6 = some (Cell.num z) := by
    rw [hR6, colGet_setCol_other "statecode" "elev" _ _ (by decide),
        colGet_dropCol_other "geometry" "elev" _ (by decide),
        colGet_renameCol_other "id" "station ID" "elev" _ (by decide) (by decide),
        hR3, colGet_setCol_self]
  simp only [columns_order, selectCols, f1, f2, f3, f4, f5]

/-- Every successful per-station metadata row has exactly five cells. -/
theorem metadataRow_length (row : DfRow) (cells : List Cell)
    (h : metadataRow row = Except.ok cells) : cells.length = 5 := by
  unfold metadataRow at h
  split at h
  · split at h
    · exact absurd h (by simp)
    · dsimp only at h
      split at h
      · rename_i cells2 heq
        have h5 := selectCols_length columns_order _ cells2 heq
        have : cells2 = cells := by
          simpa using h
        rw [← this, h5]
        rfl
      · exact absurd h (by simp)
  · exact absurd h (by simp)

/-- Every row of a successful metadata traversal has exactly five cells. -/
theorem mapMeta_row_length (df : List DfRow) (rows : List (List Cell))
    (h : mapMeta df = Except.ok rows) : ∀ r ∈ rows, r.length = 5 := by
  induction df generalizing rows with
  | nil =>
    simp only [mapMeta, Except.ok.injEq] at h
    subst h
    intro r hr
    cases hr
  | cons d t ih =>
    cases hm : metadataRow d with
    | error e => simp [mapMeta, hm] at h
    | ok cells =>
      cases hr : mapMeta t with
      | error e => simp [mapMeta, hm, hr] at h
      | ok rest =>
        simp only [mapMeta, hm, hr, Except.ok.injEq] at h
        subst h
        intro r hmem
        rcases List.mem_cons.mp hmem with rfl | hmem2
        · exact metadataRow_length d r hm
        · exact ih rest hr r hmem2

/-- If any row of the frame fails the per-station metadata body, the whole
traversal fails. -/
theorem mapMeta_error_of_mem (df : List DfRow) (row : DfRow) (hmem : row ∈ df)
    (e : String) (h : metadataRow row = Except.error e) :
    ∃ e2, mapMeta df = Except.error e2 := by
  induction df with
  | nil => cases hmem
  | cons d t ih =>
    rcases List.mem_cons.mp hmem with rfl | hmem2
    · exact ⟨e, by simp [mapMeta, h]⟩
    · cases hm : metadataRow d with
      | error e3 => exact ⟨e3, by simp [mapMeta, hm]⟩
      | ok cells =>
        obtain ⟨e4, he4⟩ := ih hmem2
        exact ⟨e4, by simp [mapMeta, hm, he4]⟩

/-- C6: a successful metadata generation always has the header
`[statecode, station ID, lat, lon, elev]`, five cells per data row, a CSV
serialization whose first line is that header with no index column, and a
per-row content determined by the columns by name — independent of the
input column order. -/
theorem metadata_fixed_columns (df : List DfRow) (header : List String)
    (rows : List (List Cell))
    (h : make_snow_course_metadata df = Except.ok (header, rows)) :
    header = ["statecode", "station ID", "lat", "lon", "elev"]
    ∧ (∀ r ∈ rows, r.length = 5)
    ∧ csvOfTable header rows
        = String.intercalate "\n" ("statecode,station ID,lat,lon,elev"
            :: rows.map (fun r => String.intercalate "," (r.map cellStr)))
    ∧ ∀ (row : DfRow) (g : GeoPoint) (z : ℚ) (c : Cell),
        colGet "geometry" row = some (Cell.geom g) → g.z = some z →
        colGet "id" row = some c → colGet "station ID" row = none →
        metadataRow row
          = Except.ok [Cell.str "CA", c, Cell.num g.y, Cell.num g.x, Cell.num z] := by
  have hrows : mapMeta df = Except.ok rows ∧ header = columns_order := by
    unfold make_snow_course_metadata at h
    cases hm : mapMeta df with
    | error e => rw [hm] at h; exact absurd h (by simp)
    | ok rows2 =>
      rw [hm] at h
      simp only [Except.ok.injEq, Prod.mk.injEq] at h
      exact ⟨by rw [h.2], h.1.symm⟩
  obtain ⟨hmm, hhd⟩ := hrows
  refine ⟨by rw [hhd]; rfl, mapMeta_row_length df rows hmm, ?_, ?_⟩
  · rw [hhd]
    have hint : String.intercalate "," columns_order = "statecode,station ID,lat,lon,elev" := rfl
    simp [csvOfTable, hint]
  · intro row g z c hg hz hid hsid
    exact metadataRow_ok row g z c hg hz hid hsid

/-- Example metadata input row: columns in locator order, 3-D geometry. -/
def rowEx : DfRow :=
  [("id", Cell.str "ABC"), ("name", Cell.str "Some Station"),
   ("geometry", Cell.geom ⟨1, 2, some 3⟩)]

/-- Witness for C6 on a one-station frame with a 3-D point. -/
theorem metadata_fixed_columns_holds :
    columns_order = ["statecode", "station ID", "lat", "lon", "elev"] :=
  (metadata_fixed_columns [rowEx] columns_order
      [[Cell.str "CA", Cell.str "ABC", Cell.num 2, Cell.num 1, Cell.num 3]]
      (by rfl)).1

/-- C9: if any station row of the frame carries a geometry without a third
coordinate (undefined elevation), the metadata generation fails with an
error instead of defaulting the elevation or emitting a malformed row. -/
theorem metadata_missing_elevation_fails (df : List DfRow) (row : DfRow)
    (hmem : row ∈ df) (g : GeoPoint)
    (hg : colGet "geometry" row = some (Cell.geom g)) (hz : g.z = none) :
    ∃ e, make_snow_course_metadata df = Except.error e := by
  have hzq : geomZ g = Except.error "z undefined" := by unfold geomZ; rw [hz]
  have hrow : metadataRow row = Except.error "z undefined" := by
    unfold metadataRow
    simp only [hg, hzq]
  obtain ⟨e2, he2⟩ := mapMeta_error_of_mem df row hmem _ hrow
  exact ⟨e2, by simp [make_snow_course_metadata, he2]⟩

/-- Example metadata input row whose geometry is 2-D (no elevation). -/
def rowEx2 : DfRow :=
  [("id", Cell.str "XYZ"), ("geometry", Cell.geom ⟨1, 2, none⟩)]

/-- Witness for C9 on a frame containing a station with a 2-D point. -/
theorem metadata_missing_elevation_fails_holds :
    ∃ e, make_snow_course_metadata [rowEx, rowEx2] = Except.error e :=
  metadata_missing_elevation_fails [rowEx, rowEx2] rowEx2 (by simp [rowEx, rowEx2])
    ⟨1, 2, none⟩ (by rfl) rfl
